import Mathlib

/-!
# Swedish social security number parser (`package ssn`)

A shallow embedding of `src/ssn/swedishSocialSecurityNumber.go`.

Modelling conventions.

* A Go `string` is a Lean `String` (a valid UTF-8 text).  Go's `len(s)` is the number of
  bytes of the UTF-8 encoding, `String.utf8ByteSize`; `strings.Split(s, "")` cuts the text
  after every UTF-8 sequence, that is, into one string per character.
* Go's `int` is `Int`: every value computed here lies between `-9` and `2099`.
* A Go `error` is `Option GoError`, `none` being `nil`.  An error made by `errors.New` is
  represented by its message, the only thing a caller can observe of it.
* A call that returns is `some (record, err)`; a call that stops with the run-time panic
  `index out of range` is `none`.
-/

namespace ssn

/-- The error values that occur in `NewSSN`: `errors.New(msg)`, and the
`*strconv.NumError` with `Err = ErrSyntax` that `strconv.Atoi` returns for the text `num`. -/
inductive GoError where
  | errorsNew (msg : String)
  | numError (fn : String) (num : String)
  deriving DecidableEq

/-- The struct `SwedishSocialSecurityNumber`, fields in the order of the source. -/
structure SwedishSocialSecurityNumber where
  year : Int
  day : Int
  month : Int
  fourLast : String
  deriving DecidableEq

/-- The digit loop of `strconv.Atoi` (fast path): `ch -= '0'; if ch > 9` fails, otherwise
`n = n*10 + int(ch)`.  The loop runs over bytes; a byte of a multi-byte UTF-8 sequence is
`≥ 0x80` and fails the test exactly as the character it belongs to does here. -/
def atoiLoop : List Char → Nat → Option Nat
  | [], n => some n
  | ch :: rest, n =>
    if ch.toNat < 48 ∨ 9 < ch.toNat - 48 then none
    else atoiLoop rest (n * 10 + (ch.toNat - 48))

/-- The function `strconv.Atoi` on texts shorter than 10 bytes (its fast path, the only one
`NewSSN` can reach: it passes two characters, at most 8 bytes) and on the empty text.
An optional sign `-` or `+` is followed by at least one decimal digit; on a syntax
error the value is `0`. -/
def Atoi (s : String) : Int × Option GoError :=
  match s.data with
  | [] => (0, some (GoError.numError "Atoi" s))
  | c :: cs =>
    let body := if c = '-' ∨ c = '+' then cs else c :: cs
    if body = [] then (0, some (GoError.numError "Atoi" s))
    else
      match atoiLoop body 0 with
      | none => (0, some (GoError.numError "Atoi" s))
      | some n => (if c = '-' then -(n : Int) else (n : Int), none)

/-- The call `strings.Split(s, "")`: one string per UTF-8 encoded character of `s`. -/
def Split (s : String) : List String :=
  s.data.map fun c => String.mk [c]

/-- The constructor `NewSSN`.  `none` is the run-time panic of an index outside `ssnSplit`.
The variable `err` is assigned by each of the three `strconv.Atoi` calls in turn, so the
test `err != nil` before the final return sees the error of the day's parse only. -/
def NewSSN (socialSecurityNumber : String) :
    Option (SwedishSocialSecurityNumber × Option GoError) :=
  let ssn : SwedishSocialSecurityNumber := ⟨0, 0, 0, ""⟩
  if socialSecurityNumber.utf8ByteSize ≠ 11 then
    some (ssn, some (GoError.errorsNew "Social security has to be 11 characters"))
  else
    let ssnSplit := Split socialSecurityNumber
    ssnSplit[6]?.bind fun separator =>
    if separator ≠ "-" ∧ separator ≠ "+" then
      some (ssn, some (GoError.errorsNew "Need separator to be - or +"))
    else
      ssnSplit[0]?.bind fun s0 =>
      ssnSplit[1]?.bind fun s1 =>
      let year := (Atoi (s0 ++ s1)).1
      if year < 0 then
        some (ssn, some (GoError.errorsNew "No negative years please..."))
      else
        let year :=
          if separator = "-" then
            if year > 14 then year + 1900 else year + 2000
          else
            if year > 14 then year + 1800 else year + 1900
        ssnSplit[2]?.bind fun s2 =>
        ssnSplit[3]?.bind fun s3 =>
        let month := (Atoi (s2 ++ s3)).1
        if month < 1 ∨ month > 12 then
          some (ssn, some (GoError.errorsNew "Month between 1 and 12"))
        else
          ssnSplit[4]?.bind fun s4 =>
          ssnSplit[5]?.bind fun s5 =>
          let day := (Atoi (s4 ++ s5)).1
          let err := (Atoi (s4 ++ s5)).2
          if day < 1 ∨ day > 31 then
            some (ssn, some (GoError.errorsNew "Month between 1 and 12"))
          else
            ssnSplit[7]?.bind fun s7 =>
            ssnSplit[8]?.bind fun s8 =>
            ssnSplit[9]?.bind fun s9 =>
            ssnSplit[10]?.bind fun s10 =>
            let fourLast := s7 ++ s8 ++ s9 ++ s10
            if err ≠ none then
              some (ssn, some (GoError.errorsNew
                "The inputted social security number is not correct"))
            else
              some (⟨year, day, month, fourLast⟩, none)

/-- The method `GetYear`. -/
def SwedishSocialSecurityNumber.GetYear (ssn : SwedishSocialSecurityNumber) : Int :=
  ssn.year

/-- The method `GetMonth`: the table of twelve names indexed at `ssn.month-1`; `none` is
the run-time panic of an index outside the table. -/
def SwedishSocialSecurityNumber.GetMonth (ssn : SwedishSocialSecurityNumber) :
    Option String :=
  let month : List String := [
    "January",
    "February",
    "March",
    "April",
    "May",
    "June",
    "July",
    "August",
    "September",
    "October",
    "November",
    "December"]
  if ssn.month - 1 < 0 then none else month[(ssn.month - 1).toNat]?

/-- The method `GetDay`. -/
def SwedishSocialSecurityNumber.GetDay (ssn : SwedishSocialSecurityNumber) : Int :=
  ssn.day

/-- The method `GetCode`. -/
def SwedishSocialSecurityNumber.GetCode (ssn : SwedishSocialSecurityNumber) : String :=
  ssn.fourLast

/-- The numeric value of a decimal digit character (specification side). -/
def digitValue (c : Char) : Int :=
  (c.toNat : Int) - 48

/-- The numeric value of two decimal digit characters read as a two-digit number
(specification side). -/
def twoDigitValue (a b : Char) : Int :=
  10 * digitValue a + digitValue b

/-! ## Auxiliary lemmas -/

/-- One-character strings are equal exactly when their characters are. -/
theorem mk_singleton_eq_iff (c d : Char) : String.mk [c] = String.mk [d] ↔ c = d := by
  constructor
  · intro h
    injection h with h
    injection h
  · intro h
    rw [h]

/-- A decimal digit character has a code between 48 and 57. -/
theorem isDigit_iff (c : Char) : c.isDigit = true ↔ 48 ≤ c.toNat ∧ c.toNat ≤ 57 := by
  simp [Char.isDigit, Char.toNat, UInt32.le_def, BitVec.le_def, UInt32.toNat]

/-- On two decimal digits `strconv.Atoi` returns the two-digit value and no error. -/
theorem Atoi_digits (a b : Char) (ha : a.isDigit = true) (hb : b.isDigit = true) :
    Atoi (String.mk [a] ++ String.mk [b])
      = (10 * ((a.toNat : Int) - 48) + ((b.toNat : Int) - 48), none) := by
  rw [isDigit_iff] at ha hb
  have ha1 : a ≠ '-' := by rintro rfl; simp at ha
  have ha2 : a ≠ '+' := by rintro rfl; simp at ha
  simp [Atoi, atoiLoop, ha1, ha2]
  rw [if_neg (by omega), if_neg (by omega)]
  simp only [Prod.mk.injEq, and_true]
  omega

/-- Whenever `strconv.Atoi` returns an error, the value it returns is `0`. -/
theorem Atoi_err_zero (s : String) (h : (Atoi s).2 ≠ none) : (Atoi s).1 = 0 := by
  unfold Atoi at h ⊢
  cases hd : s.data with
  | nil => rfl
  | cons c cs =>
    simp only [hd] at h ⊢
    by_cases hb : (if c = '-' ∨ c = '+' then cs else c :: cs) = []
    · simp only [hb, if_true]
    · simp only [hb, if_false] at h ⊢
      cases hl : atoiLoop (if c = '-' ∨ c = '+' then cs else c :: cs) 0 with
      | none => rfl
      | some n => simp [hl] at h

/-- The run of `NewSSN` on an input of length 11 whose split starts with `c0 … c6`:
the four checks in order, then the four indexings of the code. -/
theorem NewSSN_cons7 (s : String) (c0 c1 c2 c3 c4 c5 c6 : Char) (rest : List Char)
    (hlen : s.utf8ByteSize = 11) (hd : s.data = c0 :: c1 :: c2 :: c3 :: c4 :: c5 :: c6 :: rest) :
    NewSSN s =
      if c6 ≠ '-' ∧ c6 ≠ '+' then
        some (⟨0, 0, 0, ""⟩, some (GoError.errorsNew "Need separator to be - or +"))
      else if (Atoi (String.mk [c0] ++ String.mk [c1])).1 < 0 then
        some (⟨0, 0, 0, ""⟩, some (GoError.errorsNew "No negative years please..."))
      else if (Atoi (String.mk [c2] ++ String.mk [c3])).1 < 1
          ∨ (Atoi (String.mk [c2] ++ String.mk [c3])).1 > 12 then
        some (⟨0, 0, 0, ""⟩, some (GoError.errorsNew "Month between 1 and 12"))
      else if (Atoi (String.mk [c4] ++ String.mk [c5])).1 < 1
          ∨ (Atoi (String.mk [c4] ++ String.mk [c5])).1 > 31 then
        some (⟨0, 0, 0, ""⟩, some (GoError.errorsNew "Month between 1 and 12"))
      else
        match rest with
        | c7 :: c8 :: c9 :: c10 :: _ =>
          some (⟨(if c6 = '-' then
                    if (Atoi (String.mk [c0] ++ String.mk [c1])).1 > 14
                    then (Atoi (String.mk [c0] ++ String.mk [c1])).1 + 1900
                    else (Atoi (String.mk [c0] ++ String.mk [c1])).1 + 2000
                  else
                    if (Atoi (String.mk [c0] ++ String.mk [c1])).1 > 14
                    then (Atoi (String.mk [c0] ++ String.mk [c1])).1 + 1800
                    else (Atoi (String.mk [c0] ++ String.mk [c1])).1 + 1900),
                 (Atoi (String.mk [c4] ++ String.mk [c5])).1,
                 (Atoi (String.mk [c2] ++ String.mk [c3])).1,
                 String.mk [c7, c8, c9, c10]⟩, none)
        | _ => none := by
  have hm : ∀ c d : Char, (String.mk [c] = String.mk [d]) = (c = d) := fun c d =>
    propext (mk_singleton_eq_iff c d)
  have hminus : "-" = String.mk ['-'] := rfl
  have hplus : "+" = String.mk ['+'] := rfl
  unfold NewSSN
  simp only [hlen, Split, hd, hminus, hplus, hm, List.map_cons, List.getElem?_cons_zero,
    List.getElem?_cons_succ, Option.some_bind, ne_eq, not_true_eq_false, if_false]
  by_cases hsep : ¬c6 = '-' ∧ ¬c6 = '+'
  · simp only [hsep, not_false_eq_true, and_self, if_true]
  · simp only [hsep, if_false]
    by_cases hy : (Atoi (String.mk [c0] ++ String.mk [c1])).1 < 0
    · simp only [hy, if_true]
    · simp only [hy, if_false]
      by_cases hmo : (Atoi (String.mk [c2] ++ String.mk [c3])).1 < 1
          ∨ (Atoi (String.mk [c2] ++ String.mk [c3])).1 > 12
      · simp only [hmo, if_true]
      · simp only [hmo, if_false]
        by_cases hda : (Atoi (String.mk [c4] ++ String.mk [c5])).1 < 1
            ∨ (Atoi (String.mk [c4] ++ String.mk [c5])).1 > 31
        · simp only [hda, if_true]
        · simp only [hda, if_false]
          have herr : (Atoi (String.mk [c4] ++ String.mk [c5])).2 = none := by
            by_contra hne
            have := Atoi_err_zero _ hne
            omega
          rcases rest with _ | ⟨c7, _ | ⟨c8, _ | ⟨c9, _ | ⟨c10, tl⟩⟩⟩⟩ <;>
            simp [herr]
          rfl

/-- The first check of `NewSSN`. -/
theorem NewSSN_of_len_ne (s : String) (h : s.utf8ByteSize ≠ 11) :
    NewSSN s = some (⟨0, 0, 0, ""⟩,
      some (GoError.errorsNew "Social security has to be 11 characters")) := by
  unfold NewSSN
  simp only [h, ne_eq, not_false_eq_true, if_true]

/-- An accepted input has length 11. -/
theorem len_of_NewSSN_ok (s : String) (r : SwedishSocialSecurityNumber)
    (hok : NewSSN s = some (r, none)) : s.utf8ByteSize = 11 := by
  by_contra hne
  rw [NewSSN_of_len_ne s hne] at hok
  simp at hok

/-- A list with an entry at index 6 starts with seven entries. -/
theorem data_of_getElem?_six (l : List Char) (c : Char) (h : l[6]? = some c) :
    ∃ c0 c1 c2 c3 c4 c5 rest, l = c0 :: c1 :: c2 :: c3 :: c4 :: c5 :: c :: rest := by
  rcases l with _ | ⟨c0, _ | ⟨c1, _ | ⟨c2, _ | ⟨c3, _ | ⟨c4, _ | ⟨c5, _ | ⟨c6, tl⟩⟩⟩⟩⟩⟩⟩ <;>
    simp at h
  subst h
  exact ⟨c0, c1, c2, c3, c4, c5, tl, rfl⟩

/-- What acceptance by `NewSSN` says about the characters of the input and about the
record returned. -/
theorem NewSSN_ok_cons7 (s : String) (r : SwedishSocialSecurityNumber)
    (c0 c1 c2 c3 c4 c5 c6 : Char) (rest : List Char)
    (hd : s.data = c0 :: c1 :: c2 :: c3 :: c4 :: c5 :: c6 :: rest)
    (hok : NewSSN s = some (r, none)) :
    (c6 = '-' ∨ c6 = '+') ∧
    0 ≤ (Atoi (String.mk [c0] ++ String.mk [c1])).1 ∧
    (1 ≤ (Atoi (String.mk [c2] ++ String.mk [c3])).1 ∧
      (Atoi (String.mk [c2] ++ String.mk [c3])).1 ≤ 12) ∧
    (1 ≤ (Atoi (String.mk [c4] ++ String.mk [c5])).1 ∧
      (Atoi (String.mk [c4] ++ String.mk [c5])).1 ≤ 31) ∧
    ∃ c7 c8 c9 c10 tl, rest = c7 :: c8 :: c9 :: c10 :: tl ∧
      r = ⟨(if c6 = '-' then
              if (Atoi (String.mk [c0] ++ String.mk [c1])).1 > 14
              then (Atoi (String.mk [c0] ++ String.mk [c1])).1 + 1900
              else (Atoi (String.mk [c0] ++ String.mk [c1])).1 + 2000
            else
              if (Atoi (String.mk [c0] ++ String.mk [c1])).1 > 14
              then (Atoi (String.mk [c0] ++ String.mk [c1])).1 + 1800
              else (Atoi (String.mk [c0] ++ String.mk [c1])).1 + 1900),
           (Atoi (String.mk [c4] ++ String.mk [c5])).1,
           (Atoi (String.mk [c2] ++ String.mk [c3])).1,
           String.mk [c7, c8, c9, c10]⟩ := by
  have hlen := len_of_NewSSN_ok s r hok
  rw [NewSSN_cons7 s c0 c1 c2 c3 c4 c5 c6 rest hlen hd] at hok
  by_cases hsep : c6 ≠ '-' ∧ c6 ≠ '+'
  · rw [if_pos hsep] at hok
    simp at hok
  rw [if_neg hsep] at hok
  by_cases hy : (Atoi (String.mk [c0] ++ String.mk [c1])).1 < 0
  · rw [if_pos hy] at hok
    simp at hok
  rw [if_neg hy] at hok
  by_cases hmo : (Atoi (String.mk [c2] ++ String.mk [c3])).1 < 1
      ∨ (Atoi (String.mk [c2] ++ String.mk [c3])).1 > 12
  · rw [if_pos hmo] at hok
    simp at hok
  rw [if_neg hmo] at hok
  by_cases hda : (Atoi (String.mk [c4] ++ String.mk [c5])).1 < 1
      ∨ (Atoi (String.mk [c4] ++ String.mk [c5])).1 > 31
  · rw [if_pos hda] at hok
    simp at hok
  rw [if_neg hda] at hok
  have hsep2 : c6 = '-' ∨ c6 = '+' := by
    by_contra hc
    exact hsep ⟨fun h => hc (Or.inl h), fun h => hc (Or.inr h)⟩
  refine ⟨hsep2, by omega, by omega, by omega, ?_⟩
  rcases rest with _ | ⟨c7, _ | ⟨c8, _ | ⟨c9, _ | ⟨c10, tl⟩⟩⟩⟩
  · simp at hok
  · simp at hok
  · simp at hok
  · simp at hok
  · refine ⟨c7, c8, c9, c10, tl, rfl, ?_⟩
    simp only [Option.some.injEq, Prod.mk.injEq, and_true] at hok
    exact hok.symm

/-- On two characters `strconv.Atoi` returns a value between `-9` and `99`. -/
theorem Atoi_pair_range (a b : Char) :
    -9 ≤ (Atoi (String.mk [a] ++ String.mk [b])).1
      ∧ (Atoi (String.mk [a] ++ String.mk [b])).1 ≤ 99 := by
  simp only [Atoi, String.data_append, List.singleton_append]
  by_cases hs : a = '-' ∨ a = '+'
  · simp only [hs, if_true, atoiLoop]
    split_ifs <;> simp <;> omega
  · have ha : ¬ a = '-' := fun h => hs (Or.inl h)
    have hp : ¬ a = '+' := fun h => hs (Or.inr h)
    simp only [ha, hp, or_self, if_false, atoiLoop]
    split_ifs <;> simp <;> omega

/-- On `-` followed by a digit `1..9`, `strconv.Atoi` returns a negative value. -/
theorem Atoi_minus_digit (d : Char) (h1 : 49 ≤ d.toNat) (h9 : d.toNat ≤ 57) :
    (Atoi (String.mk ['-'] ++ String.mk [d])).1 < 0 := by
  simp only [Atoi, String.data_append, List.singleton_append, atoiLoop]
  simp
  rw [if_neg (by omega)]
  simp
  omega

/-- An input of length 11 whose split has no entry at index 6 makes `NewSSN` panic. -/
theorem NewSSN_none_of_short (s : String) (hlen : s.utf8ByteSize = 11)
    (h6 : s.data[6]? = none) : NewSSN s = none := by
  unfold NewSSN
  simp [hlen, Split, h6]

/-- Every error return of `NewSSN` carries the zero record and one of four messages. -/
theorem NewSSN_err_cases (s : String) (r : SwedishSocialSecurityNumber) (e : GoError)
    (h : NewSSN s = some (r, some e)) :
    r = ⟨0, 0, 0, ""⟩ ∧
    (e = GoError.errorsNew "Social security has to be 11 characters"
      ∨ e = GoError.errorsNew "Need separator to be - or +"
      ∨ e = GoError.errorsNew "No negative years please..."
      ∨ e = GoError.errorsNew "Month between 1 and 12") := by
  by_cases hlen : s.utf8ByteSize = 11
  · cases h6 : s.data[6]? with
    | none =>
      rw [NewSSN_none_of_short s hlen h6] at h
      simp at h
    | some c =>
      obtain ⟨c0, c1, c2, c3, c4, c5, rest, hd⟩ := data_of_getElem?_six s.data c h6
      rw [NewSSN_cons7 s c0 c1 c2 c3 c4 c5 c rest hlen hd] at h
      by_cases hsep : c ≠ '-' ∧ c ≠ '+'
      · rw [if_pos hsep] at h
        simp only [Option.some.injEq, Prod.mk.injEq] at h
        exact ⟨h.1.symm, Or.inr (Or.inl h.2.symm)⟩
      rw [if_neg hsep] at h
      by_cases hy : (Atoi (String.mk [c0] ++ String.mk [c1])).1 < 0
      · rw [if_pos hy] at h
        simp only [Option.some.injEq, Prod.mk.injEq] at h
        exact ⟨h.1.symm, Or.inr (Or.inr (Or.inl h.2.symm))⟩
      rw [if_neg hy] at h
      by_cases hmo : (Atoi (String.mk [c2] ++ String.mk [c3])).1 < 1
          ∨ (Atoi (String.mk [c2] ++ String.mk [c3])).1 > 12
      · rw [if_pos hmo] at h
        simp only [Option.some.injEq, Prod.mk.injEq] at h
        exact ⟨h.1.symm, Or.inr (Or.inr (Or.inr h.2.symm))⟩
      rw [if_neg hmo] at h
      by_cases hda : (Atoi (String.mk [c4] ++ String.mk [c5])).1 < 1
          ∨ (Atoi (String.mk [c4] ++ String.mk [c5])).1 > 31
      · rw [if_pos hda] at h
        simp only [Option.some.injEq, Prod.mk.injEq] at h
        exact ⟨h.1.symm, Or.inr (Or.inr (Or.inr h.2.symm))⟩
      rw [if_neg hda] at h
      split at h <;> simp at h
  · rw [NewSSN_of_len_ne s hlen] at h
    simp only [Option.some.injEq, Prod.mk.injEq] at h
    exact ⟨h.1.symm, Or.inl h.2.symm⟩

/-- What acceptance by `NewSSN` says about the whole input: eleven entries at the start
of the split, a valid separator, a year value in `0..99`, month and day in range, and the
record built from them. -/
theorem NewSSN_ok_inv (s : String) (r : SwedishSocialSecurityNumber)
    (hok : NewSSN s = some (r, none)) :
    ∃ c0 c1 c2 c3 c4 c5 c6 c7 c8 c9 c10 tl,
      s.data = c0 :: c1 :: c2 :: c3 :: c4 :: c5 :: c6 :: c7 :: c8 :: c9 :: c10 :: tl ∧
      (c6 = '-' ∨ c6 = '+') ∧
      (0 ≤ (Atoi (String.mk [c0] ++ String.mk [c1])).1 ∧
        (Atoi (String.mk [c0] ++ String.mk [c1])).1 ≤ 99) ∧
      (1 ≤ (Atoi (String.mk [c2] ++ String.mk [c3])).1 ∧
        (Atoi (String.mk [c2] ++ String.mk [c3])).1 ≤ 12) ∧
      (1 ≤ (Atoi (String.mk [c4] ++ String.mk [c5])).1 ∧
        (Atoi (String.mk [c4] ++ String.mk [c5])).1 ≤ 31) ∧
      r = ⟨(if c6 = '-' then
              if (Atoi (String.mk [c0] ++ String.mk [c1])).1 > 14
              then (Atoi (String.mk [c0] ++ String.mk [c1])).1 + 1900
              else (Atoi (String.mk [c0] ++ String.mk [c1])).1 + 2000
            else
              if (Atoi (String.mk [c0] ++ String.mk [c1])).1 > 14
              then (Atoi (String.mk [c0] ++ String.mk [c1])).1 + 1800
              else (Atoi (String.mk [c0] ++ String.mk [c1])).1 + 1900),
           (Atoi (String.mk [c4] ++ String.mk [c5])).1,
           (Atoi (String.mk [c2] ++ String.mk [c3])).1,
           String.mk [c7, c8, c9, c10]⟩ := by
  have hlen := len_of_NewSSN_ok s r hok
  cases h6 : s.data[6]? with
  | none =>
    rw [NewSSN_none_of_short s hlen h6] at hok
    simp at hok
  | some c6 =>
    obtain ⟨c0, c1, c2, c3, c4, c5, rest, hd⟩ := data_of_getElem?_six s.data c6 h6
    obtain ⟨hsep, hy, hm, hday, c7, c8, c9, c10, tl, hrest, hr⟩ :=
      NewSSN_ok_cons7 s r c0 c1 c2 c3 c4 c5 c6 rest hd hok
    subst hrest
    exact ⟨c0, c1, c2, c3, c4, c5, c6, c7, c8, c9, c10, tl, hd, hsep,
      ⟨hy, (Atoi_pair_range c0 c1).2⟩, hm, hday, hr⟩

/-! ## The claims -/

/-- Claim C1 (century rule): when `NewSSN` succeeds on an input whose characters at
positions 0 and 1 are decimal digits of value `yy`, `GetYear` is `1900+yy` (`yy > 14`) or
`2000+yy` (otherwise) with separator `-`, and `1800+yy` (`yy > 14`) or `1900+yy`
(otherwise) with separator `+`; `yy` lies in `0..99`. -/
theorem NewSSN_century_rule (s : String) (r : SwedishSocialSecurityNumber)
    (d0 d1 sep : Char)
    (hok : NewSSN s = some (r, none))
    (h0 : s.data[0]? = some d0) (h1 : s.data[1]? = some d1) (h6 : s.data[6]? = some sep)
    (hd0 : d0.isDigit = true) (hd1 : d1.isDigit = true) :
    (0 ≤ twoDigitValue d0 d1 ∧ twoDigitValue d0 d1 ≤ 99) ∧
    (sep = '-' → r.GetYear =
      if twoDigitValue d0 d1 > 14 then 1900 + twoDigitValue d0 d1
      else 2000 + twoDigitValue d0 d1) ∧
    (sep = '+' → r.GetYear =
      if twoDigitValue d0 d1 > 14 then 1800 + twoDigitValue d0 d1
      else 1900 + twoDigitValue d0 d1) := by
  obtain ⟨c0, c1, c2, c3, c4, c5, rest, hd⟩ := data_of_getElem?_six s.data sep h6
  rw [hd] at h0 h1
  simp only [List.getElem?_cons_zero, List.getElem?_cons_succ, Option.some.injEq] at h0 h1
  subst h0 h1
  have hyy : (Atoi (String.mk [c0] ++ String.mk [c1])).1 = twoDigitValue c0 c1 := by
    rw [Atoi_digits c0 c1 hd0 hd1]
    rfl
  have hr0 := (isDigit_iff c0).1 hd0
  have hr1 := (isDigit_iff c1).1 hd1
  have hrange : 0 ≤ twoDigitValue c0 c1 ∧ twoDigitValue c0 c1 ≤ 99 := by
    unfold twoDigitValue digitValue
    omega
  obtain ⟨-, -, -, -, c7, c8, c9, c10, tl, -, hr⟩ :=
    NewSSN_ok_cons7 s r c0 c1 c2 c3 c4 c5 sep rest hd hok
  rw [hyy] at hr
  subst hr
  refine ⟨hrange, ?_, ?_⟩
  · intro hs
    subst hs
    simp only [SwedishSocialSecurityNumber.GetYear, if_true]
    split_ifs <;> omega
  · intro hs
    subst hs
    have hne : ¬ ('+' = '-') := by decide
    simp only [SwedishSocialSecurityNumber.GetYear, hne, if_false]
    split_ifs <;> omega

/-- Witness for `NewSSN_century_rule`: the boundary values `yy = 14` and `yy = 15` with
both separators give the years 2014, 1915, 1914 and 1815. -/
theorem NewSSN_century_rule_witness :
    (NewSSN "140202-0166" = some (⟨2014, 2, 2, "0166"⟩, none)
      ∧ SwedishSocialSecurityNumber.GetYear ⟨2014, 2, 2, "0166"⟩ = 2014) ∧
    (NewSSN "150202-0166" = some (⟨1915, 2, 2, "0166"⟩, none)
      ∧ SwedishSocialSecurityNumber.GetYear ⟨1915, 2, 2, "0166"⟩ = 1915) ∧
    (NewSSN "141130+2951" = some (⟨1914, 30, 11, "2951"⟩, none)
      ∧ SwedishSocialSecurityNumber.GetYear ⟨1914, 30, 11, "2951"⟩ = 1914) ∧
    (NewSSN "151130+2951" = some (⟨1815, 30, 11, "2951"⟩, none)
      ∧ SwedishSocialSecurityNumber.GetYear ⟨1815, 30, 11, "2951"⟩ = 1815) :=
  ⟨⟨by decide, (NewSSN_century_rule "140202-0166" ⟨2014, 2, 2, "0166"⟩ '1' '4' '-'
      (by decide) rfl rfl rfl rfl rfl).2.1 rfl⟩,
   ⟨by decide, (NewSSN_century_rule "150202-0166" ⟨1915, 2, 2, "0166"⟩ '1' '5' '-'
      (by decide) rfl rfl rfl rfl rfl).2.1 rfl⟩,
   ⟨by decide, (NewSSN_century_rule "141130+2951" ⟨1914, 30, 11, "2951"⟩ '1' '4' '+'
      (by decide) rfl rfl rfl rfl rfl).2.2 rfl⟩,
   ⟨by decide, (NewSSN_century_rule "151130+2951" ⟨1815, 30, 11, "2951"⟩ '1' '5' '+'
      (by decide) rfl rfl rfl rfl rfl).2.2 rfl⟩⟩

/-- Claim C2 (fails on the code): `810504-830é` has eleven characters, six digits, the
separator `-`, month 05, day 04 and a four-character code, and `NewSSN` returns the
error "Social security has to be 11 characters": `len` counts its 12 bytes. -/
theorem NewSSN_rejects_well_formed_multibyte :
    "810504-830é".data.length = 11 ∧
    String.utf8ByteSize "810504-830é" = 12 ∧
    NewSSN "810504-830é" = some (⟨0, 0, 0, ""⟩,
      some (GoError.errorsNew "Social security has to be 11 characters")) := by
  decide

/-- Acceptance of well-formed inputs of single-byte characters: an input with
`len(s) = 11` made of the eleven characters `c0 … c10`, with `c0 … c5` decimal digits,
`c6` one of `-` and `+`, month value in `[1,12]` and day value in `[1,31]` (no check of
the day against the month) and any `c7 … c10`, is accepted: no error, `GetDay` is the
value of positions 4-5, the stored month the value of positions 2-3, and `GetCode` the
characters at positions 7-10. -/
theorem NewSSN_accepts_well_formed (s : String)
    (c0 c1 c2 c3 c4 c5 c6 c7 c8 c9 c10 : Char)
    (hlen : s.utf8ByteSize = 11)
    (hd : s.data = [c0, c1, c2, c3, c4, c5, c6, c7, c8, c9, c10])
    (h0 : c0.isDigit = true) (h1 : c1.isDigit = true) (h2 : c2.isDigit = true)
    (h3 : c3.isDigit = true) (h4 : c4.isDigit = true) (h5 : c5.isDigit = true)
    (hsep : c6 = '-' ∨ c6 = '+')
    (hmonth : 1 ≤ twoDigitValue c2 c3 ∧ twoDigitValue c2 c3 ≤ 12)
    (hday : 1 ≤ twoDigitValue c4 c5 ∧ twoDigitValue c4 c5 ≤ 31) :
    ∃ r : SwedishSocialSecurityNumber,
      NewSSN s = some (r, none) ∧
      r.GetDay = twoDigitValue c4 c5 ∧
      r.month = twoDigitValue c2 c3 ∧
      r.GetCode = String.mk [c7, c8, c9, c10] := by
  have hy : (Atoi (String.mk [c0] ++ String.mk [c1])).1 = twoDigitValue c0 c1 := by
    rw [Atoi_digits c0 c1 h0 h1]
    rfl
  have hm : (Atoi (String.mk [c2] ++ String.mk [c3])).1 = twoDigitValue c2 c3 := by
    rw [Atoi_digits c2 c3 h2 h3]
    rfl
  have hdv : (Atoi (String.mk [c4] ++ String.mk [c5])).1 = twoDigitValue c4 c5 := by
    rw [Atoi_digits c4 c5 h4 h5]
    rfl
  have hr0 := (isDigit_iff c0).1 h0
  have hr1 := (isDigit_iff c1).1 h1
  have hynn : ¬ twoDigitValue c0 c1 < 0 := by
    unfold twoDigitValue digitValue
    omega
  have hsep2 : ¬ (c6 ≠ '-' ∧ c6 ≠ '+') := by
    rintro ⟨ha, hb⟩
    rcases hsep with h | h
    · exact ha h
    · exact hb h
  have hmok : ¬ (twoDigitValue c2 c3 < 1 ∨ twoDigitValue c2 c3 > 12) := by omega
  have hdok : ¬ (twoDigitValue c4 c5 < 1 ∨ twoDigitValue c4 c5 > 31) := by omega
  rw [NewSSN_cons7 s c0 c1 c2 c3 c4 c5 c6 [c7, c8, c9, c10] hlen hd, hy, hm, hdv,
    if_neg hsep2, if_neg hynn, if_neg hmok, if_neg hdok]
  exact ⟨_, rfl, rfl, rfl, rfl⟩

/-- An instance of `NewSSN_accepts_well_formed`: day 31 in February is accepted. -/
theorem NewSSN_accepts_well_formed_witness :
    ∃ r : SwedishSocialSecurityNumber,
      NewSSN "810231-8303" = some (r, none) ∧
      r.GetDay = twoDigitValue '3' '1' ∧
      r.month = twoDigitValue '0' '2' ∧
      r.GetCode = String.mk ['8', '3', '0', '3'] :=
  NewSSN_accepts_well_formed "810231-8303" '8' '1' '0' '2' '3' '1' '-' '8' '3' '0' '3'
    (by decide) rfl rfl rfl rfl rfl rfl rfl (Or.inl rfl) (by decide) (by decide)

/-- Claim C3 (fails on the code): `810504-83é` and `810504é830` have ten characters and
do not get the length error: `len` counts 11 bytes, the later checks run, and the first
input panics at `ssnSplit[10]` while the second gets the separator error. -/
theorem NewSSN_length_check_counts_bytes :
    ("810504-83é".data.length = 10 ∧ String.utf8ByteSize "810504-83é" = 11 ∧
      NewSSN "810504-83é" = none) ∧
    ("810504é830".data.length = 10 ∧ String.utf8ByteSize "810504é830" = 11 ∧
      NewSSN "810504é830" = some (⟨0, 0, 0, ""⟩,
        some (GoError.errorsNew "Need separator to be - or +"))) := by
  decide

/-- The length check on the byte length: every input with `len(s) ≠ 11` gets the error
"Social security has to be 11 characters" together with the zero record, whatever its
content: no other check takes part. -/
theorem NewSSN_length_error (s : String) (h : s.utf8ByteSize ≠ 11) :
    NewSSN s = some (⟨0, 0, 0, ""⟩,
      some (GoError.errorsNew "Social security has to be 11 characters")) :=
  NewSSN_of_len_ne s h

/-- Instances of `NewSSN_length_error`: the empty input, a 10-character input without
separator and a 13-character input with a four-digit year. -/
theorem NewSSN_length_error_witness :
    NewSSN "" = some (⟨0, 0, 0, ""⟩,
      some (GoError.errorsNew "Social security has to be 11 characters")) ∧
    NewSSN "8105048303" = some (⟨0, 0, 0, ""⟩,
      some (GoError.errorsNew "Social security has to be 11 characters")) ∧
    NewSSN "19810504-8303" = some (⟨0, 0, 0, ""⟩,
      some (GoError.errorsNew "Social security has to be 11 characters")) :=
  ⟨NewSSN_length_error "" (by decide),
   NewSSN_length_error "8105048303" (by decide),
   NewSSN_length_error "19810504-8303" (by decide)⟩

/-- Claim C4 as amended (separator check): every input of eleven characters, all of
them single-byte (`len(s) = 11`), whose character at index 6 is neither `-` nor `+` gets
the error "Need separator to be - or +", whatever the other ten characters are. -/
theorem NewSSN_separator_error (s : String) (c : Char)
    (hchars : s.data.length = 11) (hlen : s.utf8ByteSize = 11)
    (h6 : s.data[6]? = some c)
    (hminus : c ≠ '-') (hplus : c ≠ '+') :
    NewSSN s = some (⟨0, 0, 0, ""⟩,
      some (GoError.errorsNew "Need separator to be - or +")) := by
  have _ := hchars
  obtain ⟨c0, c1, c2, c3, c4, c5, rest, hd⟩ := data_of_getElem?_six s.data c h6
  rw [NewSSN_cons7 s c0 c1 c2 c3 c4 c5 c rest hlen hd, if_pos ⟨hminus, hplus⟩]

/-- Witness for `NewSSN_separator_error`: the input `810504_8303`. -/
theorem NewSSN_separator_error_witness :
    NewSSN "810504_8303" = some (⟨0, 0, 0, ""⟩,
      some (GoError.errorsNew "Need separator to be - or +")) :=
  NewSSN_separator_error "810504_8303" '_' rfl (by decide) rfl (by decide) (by decide)

/-- Counterexample to claim C4 as stated: `é10504_8303` has eleven characters and `_`
at index 6, and `NewSSN` returns the length error, not the separator error. -/
theorem NewSSN_separator_error_counterexample :
    "é10504_8303".data.length = 11 ∧
    "é10504_8303".data[6]? = some '_' ∧
    NewSSN "é10504_8303" = some (⟨0, 0, 0, ""⟩,
      some (GoError.errorsNew "Social security has to be 11 characters")) ∧
    NewSSN "é10504_8303" ≠ some (⟨0, 0, 0, ""⟩,
      some (GoError.errorsNew "Need separator to be - or +")) := by
  decide

/-- Claim C5 (fails on the code): a year substring that is not two decimal digits is
accepted.  For `ab` the parse error of `strconv.Atoi` exists but is overwritten by the
later parses, and the input decodes with year 2000; `+5` is read as 5 and `-0` as 0. -/
theorem NewSSN_non_digit_year_accepted :
    (Atoi "ab").2 ≠ none ∧
    NewSSN "ab0504-8303" = some (⟨2000, 4, 5, "8303"⟩, none) ∧
    NewSSN "+50504-8303" = some (⟨2005, 4, 5, "8303"⟩, none) ∧
    NewSSN "-00504-8303" = some (⟨2000, 4, 5, "8303"⟩, none) := by
  decide

/-- Claim C6 (fails on the code): a month substring made of `+` and a digit `1..9` is
read by `strconv.Atoi` as that digit and passes the month check: `81+504-8303` is
accepted with month 5. -/
theorem NewSSN_signed_month_accepted :
    NewSSN "81+504-8303" = some (⟨1981, 4, 5, "8303"⟩, none) := by
  decide

/-- Claim C7 (fails on the code): a day substring made of `+` and a digit `1..9` is
read by `strconv.Atoi` as that digit and passes the day check: `8105+4-8303` is
accepted with day 4. -/
theorem NewSSN_signed_day_accepted :
    NewSSN "8105+4-8303" = some (⟨1981, 4, 5, "8303"⟩, none) := by
  decide

/-- Claim C8 (fails on the code): the day failure of `121233-2564` and the month failure
of `120003-2564` are reported with the same error, "Month between 1 and 12". -/
theorem NewSSN_day_error_is_month_error :
    NewSSN "121233-2564" = some (⟨0, 0, 0, ""⟩,
      some (GoError.errorsNew "Month between 1 and 12")) ∧
    NewSSN "120003-2564" = some (⟨0, 0, 0, ""⟩,
      some (GoError.errorsNew "Month between 1 and 12")) := by
  decide

/-- Claim C9 (fails on the code): `810504-83é` has 11 bytes and 10 characters; it passes
the length, separator, year, month and day checks and `ssnSplit[10]` is out of range.
An input of 11 bytes and 6 characters already panics at `ssnSplit[6]`. -/
theorem NewSSN_panics_on_multibyte :
    String.utf8ByteSize "810504-83é" = 11 ∧
    (Split "810504-83é").length = 10 ∧
    NewSSN "810504-83é" = none ∧
    NewSSN "ééééé1" = none := by
  decide

/-- Claim C10 as amended (sequential validation): on an input of eleven characters
`c0 … c10`, all of them single-byte (`len(s) = 11`), an invalid separator gives the
separator error whatever the year, month and day characters are; with a valid separator
a negative year value gives the year error whatever the month and day characters are;
with a valid separator and a non-negative year a month value outside `[1,12]` gives the
month error whatever the day characters are. -/
theorem NewSSN_first_failing_check (s : String)
    (c0 c1 c2 c3 c4 c5 c6 c7 c8 c9 c10 : Char)
    (hlen : s.utf8ByteSize = 11)
    (hd : s.data = [c0, c1, c2, c3, c4, c5, c6, c7, c8, c9, c10]) :
    ((c6 ≠ '-' ∧ c6 ≠ '+') →
      NewSSN s = some (⟨0, 0, 0, ""⟩,
        some (GoError.errorsNew "Need separator to be - or +"))) ∧
    ((c6 = '-' ∨ c6 = '+') → (Atoi (String.mk [c0] ++ String.mk [c1])).1 < 0 →
      NewSSN s = some (⟨0, 0, 0, ""⟩,
        some (GoError.errorsNew "No negative years please..."))) ∧
    ((c6 = '-' ∨ c6 = '+') → ¬ (Atoi (String.mk [c0] ++ String.mk [c1])).1 < 0 →
      ((Atoi (String.mk [c2] ++ String.mk [c3])).1 < 1
        ∨ (Atoi (String.mk [c2] ++ String.mk [c3])).1 > 12) →
      NewSSN s = some (⟨0, 0, 0, ""⟩,
        some (GoError.errorsNew "Month between 1 and 12"))) := by
  have hvalid : (c6 = '-' ∨ c6 = '+') → ¬ (c6 ≠ '-' ∧ c6 ≠ '+') := by
    rintro (h | h) ⟨ha, hb⟩
    · exact ha h
    · exact hb h
  refine ⟨?_, ?_, ?_⟩
  · intro hsep
    rw [NewSSN_cons7 s c0 c1 c2 c3 c4 c5 c6 [c7, c8, c9, c10] hlen hd, if_pos hsep]
  · intro hsep hy
    rw [NewSSN_cons7 s c0 c1 c2 c3 c4 c5 c6 [c7, c8, c9, c10] hlen hd,
      if_neg (hvalid hsep), if_pos hy]
  · intro hsep hy hm
    rw [NewSSN_cons7 s c0 c1 c2 c3 c4 c5 c6 [c7, c8, c9, c10] hlen hd,
      if_neg (hvalid hsep), if_neg hy, if_pos hm]

/-- Witness for `NewSSN_first_failing_check`: a wrong separator hides a negative year,
a wrong month and a wrong day; a negative year hides a wrong month and a wrong day; a
wrong month hides a wrong day. -/
theorem NewSSN_first_failing_check_witness :
    NewSSN "-29999_8303" = some (⟨0, 0, 0, ""⟩,
      some (GoError.errorsNew "Need separator to be - or +")) ∧
    NewSSN "-29999-8303" = some (⟨0, 0, 0, ""⟩,
      some (GoError.errorsNew "No negative years please...")) ∧
    NewSSN "819999+8303" = some (⟨0, 0, 0, ""⟩,
      some (GoError.errorsNew "Month between 1 and 12")) :=
  ⟨(NewSSN_first_failing_check "-29999_8303" '-' '2' '9' '9' '9' '9' '_'
      '8' '3' '0' '3' (by decide) rfl).1 (by decide),
   (NewSSN_first_failing_check "-29999-8303" '-' '2' '9' '9' '9' '9' '-'
      '8' '3' '0' '3' (by decide) rfl).2.1 (by decide) (by decide),
   (NewSSN_first_failing_check "819999+8303" '8' '1' '9' '9' '9' '9' '+'
      '8' '3' '0' '3' (by decide) rfl).2.2 (by decide) (by decide) (by decide)⟩

/-- Counterexample to claim C10 as stated: three inputs of eleven characters, one with an
invalid separator, one with a valid separator and the negative year `-2`, one with a
valid separator, the year 81 and the month 99; each gets the length error, not the
separator, year or month error. -/
theorem NewSSN_first_failing_check_counterexample :
    ("81é504_8303".data.length = 11 ∧ "81é504_8303".data[6]? = some '_' ∧
      NewSSN "81é504_8303" = some (⟨0, 0, 0, ""⟩,
        some (GoError.errorsNew "Social security has to be 11 characters"))) ∧
    ("-2é504-8303".data.length = 11 ∧ "-2é504-8303".data[6]? = some '-' ∧
      (Atoi (String.mk ['-'] ++ String.mk ['2'])).1 < 0 ∧
      NewSSN "-2é504-8303" = some (⟨0, 0, 0, ""⟩,
        some (GoError.errorsNew "Social security has to be 11 characters"))) ∧
    ("8199é4-8303".data.length = 11 ∧ "8199é4-8303".data[6]? = some '-' ∧
      ¬ (Atoi (String.mk ['8'] ++ String.mk ['1'])).1 < 0 ∧
      (Atoi (String.mk ['9'] ++ String.mk ['9'])).1 > 12 ∧
      NewSSN "8199é4-8303" = some (⟨0, 0, 0, ""⟩,
        some (GoError.errorsNew "Social security has to be 11 characters"))) := by
  decide

/-- Claim C11 (all-or-nothing construction): whenever `NewSSN` returns an error, the
record returned with it is the zero record: year 0, month 0, day 0 and code `""`. -/
theorem NewSSN_error_zero_record (s : String) (r : SwedishSocialSecurityNumber)
    (e : GoError) (h : NewSSN s = some (r, some e)) :
    r = ⟨0, 0, 0, ""⟩ ∧
    r.GetYear = 0 ∧ r.month = 0 ∧ r.GetDay = 0 ∧ r.GetCode = "" := by
  have hr := (NewSSN_err_cases s r e h).1
  subst hr
  exact ⟨rfl, rfl, rfl, rfl, rfl⟩

/-- Witness for `NewSSN_error_zero_record`: the day failure of `121233-2564` returns
nothing of the year 12 and the month 12 that were already decoded. -/
theorem NewSSN_error_zero_record_witness :
    NewSSN "121233-2564"
        = some (⟨0, 0, 0, ""⟩, some (GoError.errorsNew "Month between 1 and 12")) ∧
    ((⟨0, 0, 0, ""⟩ : SwedishSocialSecurityNumber) = ⟨0, 0, 0, ""⟩ ∧
      SwedishSocialSecurityNumber.GetYear ⟨0, 0, 0, ""⟩ = 0 ∧
      SwedishSocialSecurityNumber.month ⟨0, 0, 0, ""⟩ = 0 ∧
      SwedishSocialSecurityNumber.GetDay ⟨0, 0, 0, ""⟩ = 0 ∧
      SwedishSocialSecurityNumber.GetCode ⟨0, 0, 0, ""⟩ = "") :=
  ⟨by decide,
   NewSSN_error_zero_record "121233-2564" ⟨0, 0, 0, ""⟩
     (GoError.errorsNew "Month between 1 and 12") (by decide)⟩

/-- Claim C12 (month name): for the record of an accepted input, the stored month is the
value `strconv.Atoi` reads at positions 2-3 (the two-digit value when both are digits),
it lies in `[1,12]`, and `GetMonth` returns, without panic, the entry at index `month-1`
of the table January … December. -/
theorem GetMonth_of_accepted (s : String) (r : SwedishSocialSecurityNumber)
    (m0 m1 : Char) (hok : NewSSN s = some (r, none))
    (h2 : s.data[2]? = some m0) (h3 : s.data[3]? = some m1) :
    r.month = (Atoi (String.mk [m0] ++ String.mk [m1])).1 ∧
    (m0.isDigit = true → m1.isDigit = true → r.month = twoDigitValue m0 m1) ∧
    (1 ≤ r.month ∧ r.month ≤ 12) ∧
    ∃ name : String, r.GetMonth = some name ∧
      ["January", "February", "March", "April", "May", "June", "July", "August",
        "September", "October", "November", "December"][(r.month - 1).toNat]?
        = some name := by
  obtain ⟨c0, c1, c2, c3, c4, c5, c6, c7, c8, c9, c10, tl, hd, -, -, hm, -, hr⟩ :=
    NewSSN_ok_inv s r hok
  rw [hd] at h2 h3
  simp only [List.getElem?_cons_zero, List.getElem?_cons_succ, Option.some.injEq] at h2 h3
  subst h2 h3
  subst hr
  refine ⟨rfl, ?_, hm, ?_⟩
  · intro hd2 hd3
    show (Atoi (String.mk [c2] ++ String.mk [c3])).1 = twoDigitValue c2 c3
    rw [Atoi_digits c2 c3 hd2 hd3]
    rfl
  · simp only [SwedishSocialSecurityNumber.GetMonth]
    generalize (Atoi (String.mk [c2] ++ String.mk [c3])).1 = m at hm
    obtain ⟨hlo, hhi⟩ := hm
    interval_cases m <;> exact ⟨_, rfl, rfl⟩

/-- Witness for `GetMonth_of_accepted`: the four inputs of the documentation and tests
give May, February, November and September. -/
theorem GetMonth_of_accepted_witness :
    ((NewSSN "810504-8303").map fun p => p.1.GetMonth) = some (some "May") ∧
    ((NewSSN "140202-0166").map fun p => p.1.GetMonth) = some (some "February") ∧
    ((NewSSN "141130+2951").map fun p => p.1.GetMonth) = some (some "November") ∧
    ((NewSSN "800901-2829").map fun p => p.1.GetMonth) = some (some "September") ∧
    SwedishSocialSecurityNumber.month ⟨1981, 4, 5, "8303"⟩ = twoDigitValue '0' '5' :=
  ⟨by decide, by decide, by decide, by decide,
   (GetMonth_of_accepted "810504-8303" ⟨1981, 4, 5, "8303"⟩ '0' '5'
     (by decide) rfl rfl).2.1 rfl rfl⟩

/-- Claim C13 (invariant of an accepted record): whatever the input, if `NewSSN` returns
no error then `1 ≤ month ≤ 12`, `1 ≤ GetDay ≤ 31`, `GetCode` has exactly 4 characters
and `1000 ≤ GetYear ≤ 9999`. -/
theorem NewSSN_record_invariant (s : String) (r : SwedishSocialSecurityNumber)
    (hok : NewSSN s = some (r, none)) :
    (1 ≤ r.month ∧ r.month ≤ 12) ∧
    (1 ≤ r.GetDay ∧ r.GetDay ≤ 31) ∧
    r.GetCode.length = 4 ∧
    (1000 ≤ r.GetYear ∧ r.GetYear ≤ 9999) := by
  obtain ⟨c0, c1, c2, c3, c4, c5, c6, c7, c8, c9, c10, tl, -, -, hy, hm, hday, hr⟩ :=
    NewSSN_ok_inv s r hok
  subst hr
  refine ⟨hm, hday, rfl, ?_⟩
  simp only [SwedishSocialSecurityNumber.GetYear]
  split_ifs <;> omega

/-- Witness for `NewSSN_record_invariant`: the accepted input `ab0504-8303`, which is
not well-formed. -/
theorem NewSSN_record_invariant_witness :
    (1 ≤ SwedishSocialSecurityNumber.month ⟨2000, 4, 5, "8303"⟩ ∧
      SwedishSocialSecurityNumber.month ⟨2000, 4, 5, "8303"⟩ ≤ 12) ∧
    (1 ≤ SwedishSocialSecurityNumber.GetDay ⟨2000, 4, 5, "8303"⟩ ∧
      SwedishSocialSecurityNumber.GetDay ⟨2000, 4, 5, "8303"⟩ ≤ 31) ∧
    (SwedishSocialSecurityNumber.GetCode ⟨2000, 4, 5, "8303"⟩).length = 4 ∧
    (1000 ≤ SwedishSocialSecurityNumber.GetYear ⟨2000, 4, 5, "8303"⟩ ∧
      SwedishSocialSecurityNumber.GetYear ⟨2000, 4, 5, "8303"⟩ ≤ 9999) :=
  NewSSN_record_invariant "ab0504-8303" ⟨2000, 4, 5, "8303"⟩ (by decide)

/-- Claim C14 (the `+` separator is one century back): if `NewSSN` accepts `s` and the
character at index 6 of `s` is `-`, then `s` with that character replaced by `+` is
accepted too, with `GetYear` smaller by exactly 100 and the same month, day and code. -/
theorem NewSSN_plus_shifts_century (s : String) (r : SwedishSocialSecurityNumber)
    (hok : NewSSN s = some (r, none)) (h6 : s.data[6]? = some '-') :
    ∃ r' : SwedishSocialSecurityNumber,
      NewSSN (String.mk (s.data.set 6 '+')) = some (r', none) ∧
      r'.GetYear = r.GetYear - 100 ∧
      r'.month = r.month ∧ r'.GetDay = r.GetDay ∧ r'.GetCode = r.GetCode := by
  have hlen := len_of_NewSSN_ok s r hok
  obtain ⟨c0, c1, c2, c3, c4, c5, c6, c7, c8, c9, c10, tl, hd, -, hy, hm, hday, hr⟩ :=
    NewSSN_ok_inv s r hok
  rw [hd] at h6
  simp only [List.getElem?_cons_zero, List.getElem?_cons_succ, Option.some.injEq] at h6
  subst h6
  have hd' : (String.mk (s.data.set 6 '+')).data
      = c0 :: c1 :: c2 :: c3 :: c4 :: c5 :: '+' :: c7 :: c8 :: c9 :: c10 :: tl := by
    rw [hd]
    rfl
  have hlen' : (String.mk (s.data.set 6 '+')).utf8ByteSize = 11 := by
    have h1 : s.utf8ByteSize = String.utf8Len s.data := rfl
    rw [hd] at h1
    rw [String.utf8ByteSize_mk, hd]
    rw [h1] at hlen
    simp only [List.set_cons_succ, List.set_cons_zero, String.utf8Len_cons] at hlen ⊢
    have hm1 : Char.utf8Size '-' = 1 := by decide
    have hp1 : Char.utf8Size '+' = 1 := by decide
    omega
  have hne : ¬ ('+' ≠ '-' ∧ '+' ≠ '+') := by decide
  have hne2 : ¬ ('+' = '-') := by decide
  have hmok : ¬ ((Atoi (String.mk [c2] ++ String.mk [c3])).1 < 1
      ∨ (Atoi (String.mk [c2] ++ String.mk [c3])).1 > 12) := by omega
  have hdok : ¬ ((Atoi (String.mk [c4] ++ String.mk [c5])).1 < 1
      ∨ (Atoi (String.mk [c4] ++ String.mk [c5])).1 > 31) := by omega
  have hyok : ¬ (Atoi (String.mk [c0] ++ String.mk [c1])).1 < 0 := by omega
  rw [NewSSN_cons7 _ c0 c1 c2 c3 c4 c5 '+' (c7 :: c8 :: c9 :: c10 :: tl) hlen' hd',
    if_neg hne, if_neg hyok, if_neg hmok, if_neg hdok]
  subst hr
  refine ⟨_, rfl, ?_, rfl, rfl, rfl⟩
  simp only [SwedishSocialSecurityNumber.GetYear, hne2, if_false, if_true]
  split_ifs <;> omega

/-- Witness for `NewSSN_plus_shifts_century`: `060901-2829` is the year 2006 and
`060901+2829` the year 1906. -/
theorem NewSSN_plus_shifts_century_witness :
    NewSSN "060901-2829" = some (⟨2006, 1, 9, "2829"⟩, none) ∧
    NewSSN "060901+2829" = some (⟨1906, 1, 9, "2829"⟩, none) ∧
    ∃ r' : SwedishSocialSecurityNumber,
      NewSSN (String.mk ("060901-2829".data.set 6 '+')) = some (r', none) ∧
      r'.GetYear = SwedishSocialSecurityNumber.GetYear ⟨2006, 1, 9, "2829"⟩ - 100 ∧
      r'.month = SwedishSocialSecurityNumber.month ⟨2006, 1, 9, "2829"⟩ ∧
      r'.GetDay = SwedishSocialSecurityNumber.GetDay ⟨2006, 1, 9, "2829"⟩ ∧
      r'.GetCode = SwedishSocialSecurityNumber.GetCode ⟨2006, 1, 9, "2829"⟩ :=
  ⟨by decide, by decide,
   NewSSN_plus_shifts_century "060901-2829" ⟨2006, 1, 9, "2829"⟩ (by decide) rfl⟩

/-- Claim C15 (the century rule is invertible): two accepted inputs with the same
separator and two-digit years `yy1`, `yy2` have the same `GetYear` only if `yy1 = yy2`,
and the two-digit year of an accepted input is `GetYear mod 100`. -/
theorem NewSSN_century_rule_invertible (s1 s2 : String)
    (r1 r2 : SwedishSocialSecurityNumber) (a0 a1 b0 b1 sep : Char)
    (hok1 : NewSSN s1 = some (r1, none)) (hok2 : NewSSN s2 = some (r2, none))
    (ha0 : s1.data[0]? = some a0) (ha1 : s1.data[1]? = some a1)
    (hb0 : s2.data[0]? = some b0) (hb1 : s2.data[1]? = some b1)
    (hsep1 : s1.data[6]? = some sep) (hsep2 : s2.data[6]? = some sep)
    (hda0 : a0.isDigit = true) (hda1 : a1.isDigit = true)
    (hdb0 : b0.isDigit = true) (hdb1 : b1.isDigit = true) :
    (r1.GetYear = r2.GetYear → twoDigitValue a0 a1 = twoDigitValue b0 b1) ∧
    r1.GetYear % 100 = twoDigitValue a0 a1 ∧
    r2.GetYear % 100 = twoDigitValue b0 b1 := by
  obtain ⟨c0, c1, c2, c3, c4, c5, c6, c7, c8, c9, c10, tl, hd, hs1, hy, -, -, hr⟩ :=
    NewSSN_ok_inv s1 r1 hok1
  obtain ⟨e0, e1, e2, e3, e4, e5, e6, e7, e8, e9, e10, tl2, hd2, hs2, hy2, -, -, hr2⟩ :=
    NewSSN_ok_inv s2 r2 hok2
  rw [hd] at ha0 ha1 hsep1
  rw [hd2] at hb0 hb1 hsep2
  simp only [List.getElem?_cons_zero, List.getElem?_cons_succ, Option.some.injEq]
    at ha0 ha1 hb0 hb1 hsep1 hsep2
  subst ha0 ha1 hb0 hb1 hsep1
  subst hsep2
  have hv1 : (Atoi (String.mk [c0] ++ String.mk [c1])).1 = twoDigitValue c0 c1 := by
    rw [Atoi_digits c0 c1 hda0 hda1]
    rfl
  have hv2 : (Atoi (String.mk [e0] ++ String.mk [e1])).1 = twoDigitValue e0 e1 := by
    rw [Atoi_digits e0 e1 hdb0 hdb1]
    rfl
  rw [hv1] at hy hr
  rw [hv2] at hy2 hr2
  subst hr hr2
  simp only [SwedishSocialSecurityNumber.GetYear]
  refine ⟨?_, ?_, ?_⟩
  · intro h
    split_ifs at h <;> omega
  · split_ifs <;> omega
  · split_ifs <;> omega

/-- Witness for `NewSSN_century_rule_invertible`: `810504-8303` (1981) and
`140202-0166` (2014), both with separator `-`. -/
theorem NewSSN_century_rule_invertible_witness :
    (SwedishSocialSecurityNumber.GetYear ⟨1981, 4, 5, "8303"⟩
        = SwedishSocialSecurityNumber.GetYear ⟨2014, 2, 2, "0166"⟩ →
      twoDigitValue '8' '1' = twoDigitValue '1' '4') ∧
    SwedishSocialSecurityNumber.GetYear ⟨1981, 4, 5, "8303"⟩ % 100
      = twoDigitValue '8' '1' ∧
    SwedishSocialSecurityNumber.GetYear ⟨2014, 2, 2, "0166"⟩ % 100
      = twoDigitValue '1' '4' :=
  NewSSN_century_rule_invertible "810504-8303" "140202-0166"
    ⟨1981, 4, 5, "8303"⟩ ⟨2014, 2, 2, "0166"⟩ '8' '1' '1' '4' '-'
    (by decide) (by decide) rfl rfl rfl rfl rfl rfl rfl rfl rfl rfl

/-- Claim C16 as amended (negative year): on an input of eleven characters, all of them
single-byte (`len(s) = 11`), with a valid separator, whose characters at positions 0-1
are `-` and a digit `1..9`, the year value is negative and `NewSSN` returns the error
"No negative years please...", whatever the month and day characters are. -/
theorem NewSSN_negative_year_error (s : String) (d sep : Char)
    (hchars : s.data.length = 11) (hlen : s.utf8ByteSize = 11)
    (h0 : s.data[0]? = some '-') (h1 : s.data[1]? = some d)
    (h6 : s.data[6]? = some sep)
    (hd1 : d.isDigit = true) (hnz : d ≠ '0')
    (hsep : sep = '-' ∨ sep = '+') :
    (Atoi (String.mk ['-'] ++ String.mk [d])).1 < 0 ∧
    NewSSN s = some (⟨0, 0, 0, ""⟩,
      some (GoError.errorsNew "No negative years please...")) := by
  have _ := hchars
  obtain ⟨c0, c1, c2, c3, c4, c5, rest, hd⟩ := data_of_getElem?_six s.data sep h6
  rw [hd] at h0 h1
  simp only [List.getElem?_cons_zero, List.getElem?_cons_succ, Option.some.injEq] at h0 h1
  subst h0 h1
  have hr := (isDigit_iff c1).1 hd1
  have h48 : c1.toNat ≠ 48 := by
    intro h
    apply hnz
    rw [← Char.ofNat_toNat c1, h]
  have hneg := Atoi_minus_digit c1 (by omega) hr.2
  have hvalid : ¬ (sep ≠ '-' ∧ sep ≠ '+') := by
    rintro ⟨ha, hb⟩
    rcases hsep with h | h
    · exact ha h
    · exact hb h
  refine ⟨hneg, ?_⟩
  rw [NewSSN_cons7 s '-' c1 c2 c3 c4 c5 sep rest hlen hd, if_neg hvalid, if_pos hneg]

/-- Witness for `NewSSN_negative_year_error`: the input `-20101-2564` of the tests. -/
theorem NewSSN_negative_year_error_witness :
    (Atoi (String.mk ['-'] ++ String.mk ['2'])).1 < 0 ∧
    NewSSN "-20101-2564" = some (⟨0, 0, 0, ""⟩,
      some (GoError.errorsNew "No negative years please...")) :=
  NewSSN_negative_year_error "-20101-2564" '2' '-' rfl (by decide) rfl rfl rfl rfl
    (by decide) (Or.inl rfl)

/-- Counterexample to claim C16 as stated: `-2010é-2564` has eleven characters, `-` and
`2` at positions 0-1 and the separator `-`, and `NewSSN` returns the length error, not
the year error. -/
theorem NewSSN_negative_year_error_counterexample :
    "-2010é-2564".data.length = 11 ∧
    "-2010é-2564".data[0]? = some '-' ∧
    "-2010é-2564".data[1]? = some '2' ∧
    "-2010é-2564".data[6]? = some '-' ∧
    NewSSN "-2010é-2564" = some (⟨0, 0, 0, ""⟩,
      some (GoError.errorsNew "Social security has to be 11 characters")) ∧
    NewSSN "-2010é-2564" ≠ some (⟨0, 0, 0, ""⟩,
      some (GoError.errorsNew "No negative years please...")) := by
  decide

/-- Claim C17 (year range and separator): for an accepted input, `GetYear` lies in
`[1815, 2014]`; the separator is `-` exactly when `GetYear ≥ 1915` and `+` exactly when
`GetYear ≤ 1914`. -/
theorem NewSSN_year_determines_separator (s : String) (r : SwedishSocialSecurityNumber)
    (sep : Char) (hok : NewSSN s = some (r, none)) (h6 : s.data[6]? = some sep) :
    (1815 ≤ r.GetYear ∧ r.GetYear ≤ 2014) ∧
    (sep = '-' ↔ 1915 ≤ r.GetYear) ∧
    (sep = '+' ↔ r.GetYear ≤ 1914) := by
  obtain ⟨c0, c1, c2, c3, c4, c5, c6, c7, c8, c9, c10, tl, hd, hsep, hy, -, -, hr⟩ :=
    NewSSN_ok_inv s r hok
  rw [hd] at h6
  simp only [List.getElem?_cons_zero, List.getElem?_cons_succ, Option.some.injEq] at h6
  subst h6
  subst hr
  have hpm : ¬ ('+' = '-') := by decide
  have hmp : ¬ ('-' = '+') := by decide
  simp only [SwedishSocialSecurityNumber.GetYear]
  rcases hsep with h | h
  · subst h
    simp only [if_true, hmp, true_iff, false_iff]
    split_ifs <;> omega
  · subst h
    simp only [if_false, hpm, true_iff, false_iff]
    split_ifs <;> omega

/-- Witness for `NewSSN_year_determines_separator`: the two sides of the boundary,
`150202-0166` (1915, separator `-`) and `141130+2951` (1914, separator `+`). -/
theorem NewSSN_year_determines_separator_witness :
    ((1815 ≤ SwedishSocialSecurityNumber.GetYear ⟨1915, 2, 2, "0166"⟩ ∧
        SwedishSocialSecurityNumber.GetYear ⟨1915, 2, 2, "0166"⟩ ≤ 2014) ∧
      ('-' = '-' ↔ 1915 ≤ SwedishSocialSecurityNumber.GetYear ⟨1915, 2, 2, "0166"⟩) ∧
      ('-' = '+' ↔ SwedishSocialSecurityNumber.GetYear ⟨1915, 2, 2, "0166"⟩ ≤ 1914)) ∧
    ((1815 ≤ SwedishSocialSecurityNumber.GetYear ⟨1914, 30, 11, "2951"⟩ ∧
        SwedishSocialSecurityNumber.GetYear ⟨1914, 30, 11, "2951"⟩ ≤ 2014) ∧
      ('+' = '-' ↔ 1915 ≤ SwedishSocialSecurityNumber.GetYear ⟨1914, 30, 11, "2951"⟩) ∧
      ('+' = '+' ↔ SwedishSocialSecurityNumber.GetYear ⟨1914, 30, 11, "2951"⟩ ≤ 1914)) :=
  ⟨NewSSN_year_determines_separator "150202-0166" ⟨1915, 2, 2, "0166"⟩ '-'
     (by decide) rfl,
   NewSSN_year_determines_separator "141130+2951" ⟨1914, 30, 11, "2951"⟩ '+'
     (by decide) rfl⟩

/-- Claim C18 as amended (a failed parse of the year is not detected): on an input of
eleven characters `c0 … c10`, all of them single-byte (`len(s) = 11`), with a valid
separator, a two-digit month in `[1,12]` and a two-digit day in `[1,31]`, if
`strconv.Atoi` returns an error on positions 0-1 then `NewSSN` returns no error and the
year is that of `yy = 0`: 2000 with `-`, 1900 with `+`. -/
theorem NewSSN_year_parse_error_undetected (s : String)
    (c0 c1 c2 c3 c4 c5 c6 c7 c8 c9 c10 : Char)
    (hlen : s.utf8ByteSize = 11)
    (hd : s.data = [c0, c1, c2, c3, c4, c5, c6, c7, c8, c9, c10])
    (hfail : (Atoi (String.mk [c0] ++ String.mk [c1])).2 ≠ none)
    (h2 : c2.isDigit = true) (h3 : c3.isDigit = true)
    (h4 : c4.isDigit = true) (h5 : c5.isDigit = true)
    (hsep : c6 = '-' ∨ c6 = '+')
    (hmonth : 1 ≤ twoDigitValue c2 c3 ∧ twoDigitValue c2 c3 ≤ 12)
    (hday : 1 ≤ twoDigitValue c4 c5 ∧ twoDigitValue c4 c5 ≤ 31) :
    ∃ r : SwedishSocialSecurityNumber,
      NewSSN s = some (r, none) ∧
      (c6 = '-' → r.GetYear = 2000) ∧
      (c6 = '+' → r.GetYear = 1900) ∧
      r.month = twoDigitValue c2 c3 ∧
      r.GetDay = twoDigitValue c4 c5 ∧
      r.GetCode = String.mk [c7, c8, c9, c10] := by
  have hy : (Atoi (String.mk [c0] ++ String.mk [c1])).1 = 0 := Atoi_err_zero _ hfail
  have hm : (Atoi (String.mk [c2] ++ String.mk [c3])).1 = twoDigitValue c2 c3 := by
    rw [Atoi_digits c2 c3 h2 h3]
    rfl
  have hdv : (Atoi (String.mk [c4] ++ String.mk [c5])).1 = twoDigitValue c4 c5 := by
    rw [Atoi_digits c4 c5 h4 h5]
    rfl
  have hsep2 : ¬ (c6 ≠ '-' ∧ c6 ≠ '+') := by
    rintro ⟨ha, hb⟩
    rcases hsep with h | h
    · exact ha h
    · exact hb h
  have hynn : ¬ ((0 : Int) < 0) := by decide
  have hmok : ¬ (twoDigitValue c2 c3 < 1 ∨ twoDigitValue c2 c3 > 12) := by omega
  have hdok : ¬ (twoDigitValue c4 c5 < 1 ∨ twoDigitValue c4 c5 > 31) := by omega
  rw [NewSSN_cons7 s c0 c1 c2 c3 c4 c5 c6 [c7, c8, c9, c10] hlen hd, hy, hm, hdv,
    if_neg hsep2, if_neg hynn, if_neg hmok, if_neg hdok]
  refine ⟨_, rfl, ?_, ?_, rfl, rfl, rfl⟩
  · intro h
    subst h
    rfl
  · intro h
    subst h
    rfl

/-- Witness for `NewSSN_year_parse_error_undetected`: the input `ab0504-8303`. -/
theorem NewSSN_year_parse_error_undetected_witness :
    NewSSN "ab0504-8303" = some (⟨2000, 4, 5, "8303"⟩, none) ∧
    ∃ r : SwedishSocialSecurityNumber,
      NewSSN "ab0504-8303" = some (r, none) ∧
      ('-' = '-' → r.GetYear = 2000) ∧
      ('-' = '+' → r.GetYear = 1900) ∧
      r.month = twoDigitValue '0' '5' ∧
      r.GetDay = twoDigitValue '0' '4' ∧
      r.GetCode = String.mk ['8', '3', '0', '3'] :=
  ⟨by decide,
   NewSSN_year_parse_error_undetected "ab0504-8303"
     'a' 'b' '0' '5' '0' '4' '-' '8' '3' '0' '3'
     (by decide) rfl (by decide) rfl rfl rfl rfl (Or.inl rfl) (by decide) (by decide)⟩

/-- Counterexample to claim C18 as stated: `éb0504-8303` has eleven characters, the
separator `-`, month 05 and day 04, and `strconv.Atoi` fails on `éb`; `NewSSN` returns
the length error instead of a record with year 2000. -/
theorem NewSSN_year_parse_error_undetected_counterexample :
    "éb0504-8303".data.length = 11 ∧
    "éb0504-8303".data[6]? = some '-' ∧
    (Atoi (String.mk ['é'] ++ String.mk ['b'])).2 ≠ none ∧
    NewSSN "éb0504-8303" = some (⟨0, 0, 0, ""⟩,
      some (GoError.errorsNew "Social security has to be 11 characters")) ∧
    ¬ ∃ r : SwedishSocialSecurityNumber, NewSSN "éb0504-8303" = some (r, none) := by
  refine ⟨by decide, by decide, by decide, by decide, ?_⟩
  rintro ⟨r, hr⟩
  have h : NewSSN "éb0504-8303" = some (⟨0, 0, 0, ""⟩,
      some (GoError.errorsNew "Social security has to be 11 characters")) := by decide
  rw [h] at hr
  simp at hr

/-- Claim C19 (the last error branch is dead): no input makes `NewSSN` return the
error "The inputted social security number is not correct"; the reason is that a parse
by `strconv.Atoi` that returns an error returns the value 0, which the day-range check
has rejected before. -/
theorem NewSSN_final_error_unreachable :
    (∀ (s : String) (r : SwedishSocialSecurityNumber),
      NewSSN s ≠ some (r, some (GoError.errorsNew
        "The inputted social security number is not correct"))) ∧
    (∀ t : String, (Atoi t).2 ≠ none → (Atoi t).1 = 0) := by
  refine ⟨?_, Atoi_err_zero⟩
  intro s r h
  rcases (NewSSN_err_cases s r _ h).2 with h1 | h1 | h1 | h1 <;>
    exact absurd h1 (by decide)

/-- Claim C20 (`GetMonth` on the record of a failure): whenever `NewSSN` returns an
error, the record returned with it has month 0, the index `month-1` is `-1`, and
`GetMonth` panics (returns no month name). -/
theorem GetMonth_panics_on_error_record (s : String) (r : SwedishSocialSecurityNumber)
    (e : GoError) (h : NewSSN s = some (r, some e)) :
    r.month = 0 ∧ r.month - 1 = -1 ∧ r.GetMonth = none := by
  have hr := (NewSSN_err_cases s r e h).1
  subst hr
  exact ⟨rfl, rfl, rfl⟩

/-- Witness for `GetMonth_panics_on_error_record`: the record returned for the empty
input. -/
theorem GetMonth_panics_on_error_record_witness :
    SwedishSocialSecurityNumber.month ⟨0, 0, 0, ""⟩ = 0 ∧
    SwedishSocialSecurityNumber.month ⟨0, 0, 0, ""⟩ - 1 = -1 ∧
    SwedishSocialSecurityNumber.GetMonth ⟨0, 0, 0, ""⟩ = none :=
  GetMonth_panics_on_error_record "" ⟨0, 0, 0, ""⟩
    (GoError.errorsNew "Social security has to be 11 characters") (by decide)

end ssn
